import Mathlib

/-!
Verification of the content-website REST backend (blog, news, events,
comments, newsletter subscriptions, file storage).  Each Python route
handler relevant to the verified properties is shallowly embedded as a
pure Lean function over an explicit database / storage state, following
the source in `src/blog/router.py`, `src/newsEvents/router.py`,
`src/news&Events/router.py`, `src/storage/router.py` and
`src/storage/s3.py`; the SQLAlchemy models in `src/blog/model.py`,
`src/newsEvents/model.py` and `src/storage/model.py` supply the row
shapes and the uniqueness / foreign-key constraints enforced at commit.
-/

namespace BackendPath

/-! ### Slug derivation

`slugify` models the external python-slugify library call used by both
`generate_slug` helpers: lowercase, non-alphanumeric characters become
hyphens, hyphen runs collapse, leading and trailing hyphens are trimmed. -/

def slugifyChar (c : Char) : Char :=
  if c.isAlphanum then c.toLower else '-'

def collapseHyphens : List Char → List Char
  | [] => []
  | '-' :: cs =>
    match collapseHyphens cs with
    | '-' :: rest => '-' :: rest
    | rest => '-' :: rest
  | c :: cs => c :: collapseHyphens cs

def trimHyphens (cs : List Char) : List Char :=
  ((cs.dropWhile (· = '-')).reverse.dropWhile (· = '-')).reverse

def slugify (s : String) : String :=
  ⟨trimHyphens (collapseHyphens (s.data.map slugifyChar))⟩

/-- The k-th candidate tried by `generate_slug` (`src/blog/router.py`
lines 30-47 and `src/newsEvents/router.py` lines 39-56): the base slug
itself for `k = 0`, then `base-k` for `k ≥ 1` (the Python loop starts
its counter at 1). -/
def slugCandidate (base : String) (k : Nat) : String :=
  if k = 0 then base else base ++ "-" ++ toString k

/-- The `while query.first() is not None` loop of `generate_slug`,
made structurally recursive with explicit fuel: starting from candidate
index `k`, return the first candidate not present in `taken`.  The
fuel-exhausted default is never reached for the fuel supplied by
`generate_slug` on the inputs covered by the theorems below. -/
def slugSearch (base : String) (taken : List String) : Nat → Nat → String
  | _, 0 => base
  | k, fuel + 1 =>
    if slugCandidate base k ∈ taken then slugSearch base taken (k + 1) fuel
    else slugCandidate base k

/-- `generate_slug(title, db)` on the create path (no `id` exclusion):
`taken` is the list of slugs of the existing rows of the same entity
type, exactly the rows inspected by `db.query(model).filter(slug == s)`.
Both the blog and the newsEvents helper implement this same search. -/
def generate_slug (title : String) (taken : List String) : String :=
  slugSearch (slugify title) taken 0 (taken.length + 2)

theorem slugSearch_finds (base : String) (taken : List String) :
    ∀ fuel k0 k, k0 ≤ k → k - k0 < fuel →
      (∀ j, k0 ≤ j → j < k → slugCandidate base j ∈ taken) →
      slugCandidate base k ∉ taken →
      slugSearch base taken k0 fuel = slugCandidate base k := by
  intro fuel
  induction fuel with
  | zero => intro k0 k _ h _ _; omega
  | succ fuel ih =>
    intro k0 k hle hfuel htaken hfree
    by_cases hk : k0 = k
    · subst hk
      simp [slugSearch, hfree]
    · have hlt : k0 < k := lt_of_le_of_ne hle hk
      have h0 : slugCandidate base k0 ∈ taken := htaken k0 le_rfl hlt
      simp only [slugSearch, if_pos h0]
      exact ih (k0 + 1) k hlt (by omega) (fun j hj hj2 => htaken j (by omega) hj2) hfree

/-! ### Data model

Row shapes follow the SQLAlchemy models (`src/blog/model.py`,
`src/newsEvents/model.py`, `src/storage/model.py`), keeping the columns
the verified routes read or write.  Machine integers are `Nat`,
nullable columns are `Option`, timestamps are abstract `Nat` instants. -/

inductive ContentType where
  | news
  | event
deriving Repr, DecidableEq

inductive FileType where
  | blog_image
  | news_image
  | other
deriving Repr, DecidableEq

/-- `FileType.value`, the folder prefix used by `upload_file`. -/
def FileType.value : FileType → String
  | .blog_image => "blog_image"
  | .news_image => "news_image"
  | .other => "other"

structure BlogCategoryRow where
  id : Nat
  name : String
  description : Option String
  slug : String
deriving Repr, DecidableEq

structure CategoryRow where
  id : Nat
  name : String
  description : Option String
deriving Repr, DecidableEq

structure TagRow where
  id : Nat
  name : String
  description : Option String
deriving Repr, DecidableEq

structure UserRow where
  id : Nat
deriving Repr, DecidableEq

structure StoredFileRow where
  id : Nat
  filename : String
  original_filename : String
  file_path : String
  file_type : FileType
  content_type : String
  size_bytes : Nat
  bucket_name : String
  public_url : Option String
  related_entity_id : Option Nat
deriving Repr, DecidableEq

structure BlogRow where
  id : Nat
  title : String
  slug : String
  featured_image_id : Option Nat
  author_id : Option Nat
  author_name : Option String
  category_id : Option Nat
  content : String
  og_image_id : Option Nat
  is_published : Bool
  view_count : Nat
  tag_ids : List Nat
  related_blog_ids : List Nat
deriving Repr, DecidableEq

structure NewsRow where
  id : Nat
  title : String
  slug : String
  featured_image_id : Option Nat
  category_id : Option Nat
  content : String
  is_published : Bool
  view_count : Nat
  tag_ids : List Nat
deriving Repr, DecidableEq

structure EventRow where
  id : Nat
  title : String
  slug : String
  featured_image_id : Option Nat
  category_id : Option Nat
  description : String
  is_published : Bool
  view_count : Nat
  tag_ids : List Nat
deriving Repr, DecidableEq

structure CommentRow where
  id : Nat
  content : String
  author_name : Option String
  author_email : Option String
  user_id : Option Nat
  news_id : Option Nat
  event_id : Option Nat
  /-- Added to the shared `Comment` model by `src/blog/model.py` lines 92-95. -/
  blog_id : Option Nat
  content_type : ContentType
  is_approved : Bool
deriving Repr, DecidableEq

structure SubscriptionRow where
  id : Nat
  email : String
  name : Option String
  is_confirmed : Bool
  confirmation_token : Option String
  source : Option String
  confirmed_at : Option Nat
  unsubscribed_at : Option Nat
  is_active : Bool
deriving Repr, DecidableEq

structure DB where
  blog_categories : List BlogCategoryRow
  blogs : List BlogRow
  categories : List CategoryRow
  tags : List TagRow
  users : List UserRow
  stored_files : List StoredFileRow
  news : List NewsRow
  events : List EventRow
  comments : List CommentRow
  subscriptions : List SubscriptionRow
deriving Repr, DecidableEq

/-- The empty database. -/
def DB.empty : DB := ⟨[], [], [], [], [], [], [], [], [], []⟩

/-- HTTP-level outcomes of a route handler.  `conflict409`,
`notFound404` and `badRequest400` are the explicit `HTTPException`s in
the routers; `integrityError500` is an uncaught SQLAlchemy
`IntegrityError` (unique or foreign-key constraint violation at
commit) which the global handler in `src/main.py` turns into HTTP 500;
`unexpected500` is any other uncaught exception (also HTTP 500). -/
inductive ApiError where
  | conflict409
  | notFound404
  | badRequest400
  | integrityError500
  | unexpected500
deriving Repr, DecidableEq

/-! ### Content creation (blog / news / event)

Python truthiness: `if x:` on a nullable integer is false for both
`None` and `0`, and on a nullable string for both `None` and `""`. -/

def truthyNat : Option Nat → Bool
  | some n => n != 0
  | none => false

def truthyStr : Option String → Bool
  | some s => s != ""
  | none => false

/-- A nullable foreign-key column value is accepted at commit when it is
absent or references an existing id. -/
def fkOk : Option Nat → List Nat → Bool
  | none, _ => true
  | some i, ids => ids.contains i

structure BlogCreate where
  title : String
  slug : Option String
  content : String
  author_name : Option String
  is_published : Bool
  category_id : Option Nat
  author_id : Option Nat
  featured_image_id : Option Nat
  og_image_id : Option Nat
  tag_ids : Option (List Nat)
  related_blog_ids : Option (List Nat)
deriving Repr, DecidableEq

/-- `db.add(row); db.commit()` for a blog row under the constraints of
`src/blog/model.py`: `slug` is unique, `category_id`, `author_id`,
`featured_image_id` and `og_image_id` are foreign keys.  A violation
raises `IntegrityError`, reaching the client as HTTP 500. -/
def insertBlog (db : DB) (b : BlogRow) : Except ApiError DB :=
  if db.blogs.any (fun r => r.slug = b.slug) then .error .integrityError500
  else if !fkOk b.category_id (db.blog_categories.map (·.id)) then .error .integrityError500
  else if !fkOk b.author_id (db.users.map (·.id)) then .error .integrityError500
  else if !fkOk b.featured_image_id (db.stored_files.map (·.id)) then .error .integrityError500
  else if !fkOk b.og_image_id (db.stored_files.map (·.id)) then .error .integrityError500
  else .ok { db with blogs := db.blogs ++ [b] }

/-- The foreign-key "validate, else downgrade to null" step shared by
the create handlers.  Mirrors `if data.get(field):` followed by a
lookup: a truthy id that does not resolve becomes `None`; a falsy value
(`None`, or the integer `0`) is left untouched and skips validation. -/
def downgradeFk (v : Option Nat) (existing : List Nat) : Option Nat :=
  if truthyNat v then (if v.any existing.contains then v else none) else v

/-- `create_blog` (`src/blog/router.py` lines 94-176).  `nextId` is the
primary key the database assigns to the new row. -/
def create_blog (db : DB) (inp : BlogCreate) (nextId : Nat) :
    Except ApiError (DB × BlogRow) :=
  let slugStep : Except ApiError String :=
    if truthyStr inp.slug then
      let s := inp.slug.getD ""
      if db.blogs.any (fun b => b.slug = s) then .error .conflict409 else .ok s
    else
      .ok (generate_slug inp.title (db.blogs.map (·.slug)))
  match slugStep with
  | .error e => .error e
  | .ok s =>
    let cat := downgradeFk inp.category_id (db.blog_categories.map (·.id))
    let auth := downgradeFk inp.author_id (db.users.map (·.id))
    let fimg := downgradeFk inp.featured_image_id (db.stored_files.map (·.id))
    let oimg := downgradeFk inp.og_image_id (db.stored_files.map (·.id))
    let tagIds := inp.tag_ids.getD []
    let relIds := inp.related_blog_ids.getD []
    let row : BlogRow :=
      { id := nextId, title := inp.title, slug := s,
        featured_image_id := fimg, author_id := auth,
        author_name := inp.author_name, category_id := cat,
        content := inp.content, og_image_id := oimg,
        is_published := inp.is_published, view_count := 0,
        tag_ids := (db.tags.filter (fun t => tagIds.contains t.id)).map (·.id),
        related_blog_ids :=
          ((db.blogs.filter (fun b => relIds.contains b.id)).map (·.id)) ++
            (if relIds.contains nextId then [nextId] else []) }
    match insertBlog db row with
    | .error e => .error e
    | .ok db1 => .ok (db1, row)

structure NewsCreate where
  title : String
  slug : Option String
  content : String
  is_published : Bool
  category_id : Option Nat
  featured_image_id : Option Nat
  tag_ids : Option (List Nat)
deriving Repr, DecidableEq

/-- Commit of a news row: `slug` unique, `category_id` and
`featured_image_id` foreign keys (`src/newsEvents/model.py`). -/
def insertNews (db : DB) (n : NewsRow) : Except ApiError DB :=
  if db.news.any (fun r => r.slug = n.slug) then .error .integrityError500
  else if !fkOk n.category_id (db.categories.map (·.id)) then .error .integrityError500
  else if !fkOk n.featured_image_id (db.stored_files.map (·.id)) then .error .integrityError500
  else .ok { db with news := db.news ++ [n] }

/-- `create_news` (`src/newsEvents/router.py` lines 112-171).  Unlike
`create_blog` and `create_event` it performs no duplicate check on an
explicitly supplied slug: a collision first surfaces at commit. -/
def create_news (db : DB) (inp : NewsCreate) (nextId : Nat) :
    Except ApiError (DB × NewsRow) :=
  let s :=
    if truthyStr inp.slug then inp.slug.getD ""
    else generate_slug inp.title (db.news.map (·.slug))
  let cat := downgradeFk inp.category_id (db.categories.map (·.id))
  let fimg := downgradeFk inp.featured_image_id (db.stored_files.map (·.id))
  let tagIds := inp.tag_ids.getD []
  let row : NewsRow :=
    { id := nextId, title := inp.title, slug := s,
      featured_image_id := fimg, category_id := cat,
      content := inp.content, is_published := inp.is_published,
      view_count := 0,
      tag_ids := (db.tags.filter (fun t => tagIds.contains t.id)).map (·.id) }
  match insertNews db row with
  | .error e => .error e
  | .ok db1 => .ok (db1, row)

structure EventCreate where
  title : String
  slug : Option String
  description : String
  is_published : Bool
  category_id : Option Nat
  featured_image_id : Option Nat
  tag_ids : Option (List Nat)
deriving Repr, DecidableEq

/-- Commit of an event row: `slug` unique, `category_id` and
`featured_image_id` foreign keys (`src/newsEvents/model.py`). -/
def insertEvent (db : DB) (e : EventRow) : Except ApiError DB :=
  if db.events.any (fun r => r.slug = e.slug) then .error .integrityError500
  else if !fkOk e.category_id (db.categories.map (·.id)) then .error .integrityError500
  else if !fkOk e.featured_image_id (db.stored_files.map (·.id)) then .error .integrityError500
  else .ok { db with events := db.events ++ [e] }

/-- `create_event` (`src/newsEvents/router.py` lines 309-376): same
explicit-slug conflict check as `create_blog`. -/
def create_event (db : DB) (inp : EventCreate) (nextId : Nat) :
    Except ApiError (DB × EventRow) :=
  let slugStep : Except ApiError String :=
    if truthyStr inp.slug then
      let s := inp.slug.getD ""
      if db.events.any (fun e => e.slug = s) then .error .conflict409 else .ok s
    else
      .ok (generate_slug inp.title (db.events.map (·.slug)))
  match slugStep with
  | .error e => .error e
  | .ok s =>
    let cat := downgradeFk inp.category_id (db.categories.map (·.id))
    let fimg := downgradeFk inp.featured_image_id (db.stored_files.map (·.id))
    let tagIds := inp.tag_ids.getD []
    let row : EventRow :=
      { id := nextId, title := inp.title, slug := s,
        featured_image_id := fimg, category_id := cat,
        description := inp.description, is_published := inp.is_published,
        view_count := 0,
        tag_ids := (db.tags.filter (fun t => tagIds.contains t.id)).map (·.id) }
    match insertEvent db row with
    | .error e => .error e
    | .ok db1 => .ok (db1, row)

/-! ### Taxonomy creation (blog categories, categories, tags) -/

structure BlogCategoryCreate where
  name : String
  description : Option String
  slug : Option String
deriving Repr, DecidableEq

structure CategoryCreate where
  name : String
  description : Option String
deriving Repr, DecidableEq

structure TagCreate where
  name : String
  description : Option String
deriving Repr, DecidableEq

def insertBlogCategory (db : DB) (c : BlogCategoryRow) : Except ApiError DB :=
  if db.blog_categories.any (fun r => r.name = c.name ∨ r.slug = c.slug) then
    .error .integrityError500
  else .ok { db with blog_categories := db.blog_categories ++ [c] }

def insertCategory (db : DB) (c : CategoryRow) : Except ApiError DB :=
  if db.categories.any (fun r => r.name = c.name) then .error .integrityError500
  else .ok { db with categories := db.categories ++ [c] }

def insertTag (db : DB) (t : TagRow) : Except ApiError DB :=
  if db.tags.any (fun r => r.name = t.name) then .error .integrityError500
  else .ok { db with tags := db.tags ++ [t] }

/-- `create_blog_category` (`src/blog/router.py` lines 64-79): an
existing category of the same name is returned unchanged instead of
creating a duplicate. -/
def create_blog_category (db : DB) (inp : BlogCategoryCreate) (nextId : Nat) :
    Except ApiError (DB × BlogCategoryRow) :=
  match db.blog_categories.find? (fun c => c.name = inp.name) with
  | some existing => .ok (db, existing)
  | none =>
    let slug := if truthyStr inp.slug then inp.slug.getD "" else slugify inp.name
    let row : BlogCategoryRow :=
      { id := nextId, name := inp.name, description := inp.description, slug := slug }
    match insertBlogCategory db row with
    | .error e => .error e
    | .ok db1 => .ok (db1, row)

/-- `create_category` (`src/newsEvents/router.py` lines 59-70). -/
def create_category (db : DB) (inp : CategoryCreate) (nextId : Nat) :
    Except ApiError (DB × CategoryRow) :=
  match db.categories.find? (fun c => c.name = inp.name) with
  | some existing => .ok (db, existing)
  | none =>
    let row : CategoryRow := { id := nextId, name := inp.name, description := inp.description }
    match insertCategory db row with
    | .error e => .error e
    | .ok db1 => .ok (db1, row)

/-- `create_tag` (`src/newsEvents/router.py` lines 85-96). -/
def create_tag (db : DB) (inp : TagCreate) (nextId : Nat) :
    Except ApiError (DB × TagRow) :=
  match db.tags.find? (fun t => t.name = inp.name) with
  | some existing => .ok (db, existing)
  | none =>
    let row : TagRow := { id := nextId, name := inp.name, description := inp.description }
    match insertTag db row with
    | .error e => .error e
    | .ok db1 => .ok (db1, row)

/-! ### Comments -/

structure BlogCommentCreate where
  content : String
  author_name : Option String
  author_email : Option String
  user_id : Option Nat
deriving Repr, DecidableEq

structure CommentCreate where
  content : String
  author_name : Option String
  author_email : Option String
  content_type : ContentType
  news_id : Option Nat
  event_id : Option Nat
deriving Repr, DecidableEq

/-- Commit of a comment row: `user_id`, `news_id`, `event_id` and
`blog_id` are foreign keys (`src/newsEvents/model.py` lines 154-171
plus the `blog_id` column added in `src/blog/model.py`). -/
def insertComment (db : DB) (c : CommentRow) : Except ApiError DB :=
  if !fkOk c.user_id (db.users.map (·.id)) then .error .integrityError500
  else if !fkOk c.news_id (db.news.map (·.id)) then .error .integrityError500
  else if !fkOk c.event_id (db.events.map (·.id)) then .error .integrityError500
  else if !fkOk c.blog_id (db.blogs.map (·.id)) then .error .integrityError500
  else .ok { db with comments := db.comments ++ [c] }

/-- `create_blog_comment` (`src/blog/router.py` lines 335-359): the
comment is stored with `blog_id` set and `content_type=ContentType.NEWS`
(the source comment reads "Reusing ContentType.NEWS for blog"); no
`news_id` is assigned. -/
def create_blog_comment (db : DB) (blogId : Nat) (inp : BlogCommentCreate)
    (nextId : Nat) : Except ApiError (DB × CommentRow) :=
  if db.blogs.any (fun b => b.id = blogId) then
    let row : CommentRow :=
      { id := nextId, content := inp.content, author_name := inp.author_name,
        author_email := inp.author_email, user_id := inp.user_id,
        news_id := none, event_id := none, blog_id := some blogId,
        content_type := .news, is_approved := false }
    match insertComment db row with
    | .error e => .error e
    | .ok db1 => .ok (db1, row)
  else .error .notFound404

/-- `create_comment` (`src/news&Events/router.py` lines 462-484): a
news comment requires an existing `news_id` (else 400/404), an event
comment an existing `event_id`; the row is built from the provided
fields (the `CommentCreate` schema carries no `user_id`). -/
def create_comment (db : DB) (inp : CommentCreate) (nextId : Nat) :
    Except ApiError (DB × CommentRow) :=
  let check : Except ApiError Unit :=
    match inp.content_type with
    | .news =>
      match inp.news_id with
      | none => .error .badRequest400
      | some nid =>
        if db.news.any (fun n => n.id = nid) then .ok () else .error .notFound404
    | .event =>
      match inp.event_id with
      | none => .error .badRequest400
      | some eid =>
        if db.events.any (fun e => e.id = eid) then .ok () else .error .notFound404
  match check with
  | .error e => .error e
  | .ok _ =>
    let row : CommentRow :=
      { id := nextId, content := inp.content, author_name := inp.author_name,
        author_email := inp.author_email, user_id := none,
        news_id := inp.news_id, event_id := inp.event_id, blog_id := none,
        content_type := inp.content_type, is_approved := false }
    match insertComment db row with
    | .error e => .error e
    | .ok db1 => .ok (db1, row)

/-- The §3 invariant: the content-type discriminator matches the
populated owning-id field. -/
def commentInvariant (c : CommentRow) : Prop :=
  (c.content_type = .news → c.news_id ≠ none) ∧
  (c.content_type = .event → c.event_id ≠ none)

/-! ### Newsletter subscriptions -/

structure SubscriptionCreate where
  email : String
  name : Option String
  source : Option String
deriving Repr, DecidableEq

/-- `create_subscription` (`src/blog/router.py` lines 377-414).  `tok`
is the freshly generated uuid confirmation token, `nextId` the primary
key of a newly created row.  The third component is the transient
informational `message` the handler attaches to the returned record
(no message for a brand-new subscription). -/
def create_subscription (db : DB) (inp : SubscriptionCreate) (tok : String)
    (nextId : Nat) : DB × SubscriptionRow × Option String :=
  match db.subscriptions.find? (fun s => s.email = inp.email) with
  | some s =>
    if s.is_active then
      (db, s, some "This email is already subscribed to our newsletter.")
    else
      let s2 := { s with is_active := true, unsubscribed_at := none }
      ({ db with subscriptions :=
          db.subscriptions.map (fun r => if r.id = s.id then s2 else r) },
        s2, some "Your subscription has been reactivated.")
  | none =>
    let s2 : SubscriptionRow :=
      { id := nextId, email := inp.email, name := inp.name,
        is_confirmed := false, confirmation_token := some tok,
        source := inp.source, confirmed_at := none, unsubscribed_at := none,
        is_active := true }
    ({ db with subscriptions := db.subscriptions ++ [s2] }, s2, none)

/-- `confirm_subscription` (`src/blog/router.py` lines 416-431): the
first row whose stored token equals the supplied one is marked
confirmed and its token cleared; no match is a 404. -/
def confirm_subscription (db : DB) (token : String) (now : Nat) :
    Except ApiError DB :=
  match db.subscriptions.find? (fun s => s.confirmation_token = some token) with
  | none => .error .notFound404
  | some s =>
    let s2 := { s with is_confirmed := true, confirmed_at := some now,
                       confirmation_token := none }
    .ok { db with subscriptions :=
      db.subscriptions.map (fun r => if r.id = s.id then s2 else r) }

/-! ### Storage (`src/storage/router.py`, `src/storage/s3.py`)

File payloads are byte lists.  The remote object store is an external
collaborator (spec §1); it is modelled as a key-value map together with
a connectivity flag: an operation against a disconnected store raises
`ClientError`. -/

abbrev Bytes := List Nat

def lookupBytes (l : List (String × Bytes)) (k : String) : Option Bytes :=
  (l.find? (fun p => p.1 = k)).map (·.2)

structure S3Remote where
  connected : Bool
  objects : List (String × Bytes)
deriving Repr, DecidableEq

/-- Modelled from the spec: the remote object-storage capability
(`put` by key).  `none` is a `ClientError`. -/
def S3Remote.putObject (r : S3Remote) (key : String) (body : Bytes) :
    Option S3Remote :=
  if r.connected then
    some { r with objects := (key, body) :: r.objects.filter (fun p => p.1 ≠ key) }
  else none

/-- Modelled from the spec: the remote object-storage capability
(`delete` by key).  Per the S3 service contract, deleting an absent key
succeeds; only a connectivity failure raises `ClientError` (`none`). -/
def S3Remote.deleteObject (r : S3Remote) (key : String) : Option S3Remote :=
  if r.connected then
    some { r with objects := r.objects.filter (fun p => p.1 ≠ key) }
  else none

/-- Module-level configuration of `src/storage/router.py` (after the
startup fallback logic has run) and of an `S3Storage` instance. -/
structure StorageEnv where
  s3_client : Bool
  use_local_storage : Bool
  s3_bucket : Option String
  s3_region : String
  base_url : String
  local_storage_path : String
deriving Repr, DecidableEq

/-- `save_to_local_storage` (`src/storage/router.py` lines 75-92):
writes the bytes under the relative `file_path` and returns the full
path on disk plus the static public URL. -/
def save_to_local_storage (env : StorageEnv) (files : List (String × Bytes))
    (contents : Bytes) (file_path : String) :
    List (String × Bytes) × String × String :=
  let full_path := env.local_storage_path ++ "/" ++ file_path
  let public_url := env.base_url ++ "/local-files/" ++ file_path
  ((file_path, contents) :: files.filter (fun p => p.1 ≠ file_path),
    full_path, public_url)

/-- `upload_file` (`src/storage/router.py` lines 94-202).  `contents`
is the fully read request payload, `uniqueName` the uuid-based filename
from `get_unique_filename`, `ctype` the declared content type after the
`or "application/octet-stream"` fallback.  An empty payload is rejected
with 400.  When S3 is active the object is put under
`file_type.value/uniqueName`; a `ClientError` falls back to local
storage.  No branch transforms the payload for any content type. -/
def upload_file (env : StorageEnv) (remote : S3Remote)
    (localFiles : List (String × Bytes)) (db : DB) (contents : Bytes)
    (origName uniqueName : String) (ftype : FileType) (ctype : String)
    (relatedId : Option Nat) (nextId : Nat) :
    Except ApiError (S3Remote × List (String × Bytes) × DB × StoredFileRow) :=
  if contents = [] then .error .badRequest400
  else
    let file_path := ftype.value ++ "/" ++ uniqueName
    let using_s3 := env.s3_client && !env.use_local_storage && env.s3_bucket.isSome
    let step : S3Remote × List (String × Bytes) × String × String × String :=
      if using_s3 then
        match remote.putObject file_path contents with
        | some r2 =>
          let bucket := env.s3_bucket.getD ""
          (r2, localFiles, file_path,
            "https://" ++ bucket ++ ".s3." ++ env.s3_region ++
              ".amazonaws.com/" ++ file_path,
            bucket)
        | none =>
          let (lf, storage_path, url) :=
            save_to_local_storage env localFiles contents file_path
          (remote, lf, storage_path, url, "local_storage")
      else
        let (lf, storage_path, url) :=
          save_to_local_storage env localFiles contents file_path
        (remote, lf, storage_path, url, "local_storage")
    match step with
    | (r2, lf2, storage_path, public_url, bucket) =>
      let row : StoredFileRow :=
        { id := nextId, filename := uniqueName, original_filename := origName,
          file_path := storage_path, file_type := ftype, content_type := ctype,
          size_bytes := contents.length, bucket_name := bucket,
          public_url := some public_url, related_entity_id := relatedId }
      .ok (r2, lf2, { db with stored_files := db.stored_files ++ [row] }, row)

/-- `S3Storage._delete_local_file` (`src/storage/s3.py` lines 235-246):
an existing file is removed with success; a missing file yields
`(False, "File not found")`. -/
def delete_local_file (files : List (String × Bytes)) (file_path : String) :
    Bool × String × List (String × Bytes) :=
  if (files.find? (fun p => p.1 = file_path)).isSome then
    (true, "File deleted successfully", files.filter (fun p => p.1 ≠ file_path))
  else (false, "File not found", files)

/-- `S3Storage.delete_file` (`src/storage/s3.py` lines 199-233).  The
bucket hint falls back to the configured bucket (`bucket_name or
self.bucket_name`); local storage or an explicit `local_storage` hint
dispatches to `_delete_local_file`; otherwise a single S3 delete is
attempted, with `ClientError` reported as a failure result. -/
def S3Storage.delete_file (env : StorageEnv) (remote : S3Remote)
    (files : List (String × Bytes)) (file_key : String)
    (bucketHint : Option String) :
    Bool × String × S3Remote × List (String × Bytes) :=
  let bucket := if truthyStr bucketHint then bucketHint else env.s3_bucket
  if env.use_local_storage || bucket == some "local_storage" then
    match delete_local_file files file_key with
    | (ok, msg, files2) => (ok, msg, remote, files2)
  else if !env.s3_client then (false, "S3 client not initialized", remote, files)
  else
    match remote.deleteObject file_key with
    | some r2 => (true, "File deleted successfully", r2, files)
    | none => (false, "S3 client error: connection failure", remote, files)

/-- `delete_file` route (`src/storage/router.py` lines 237-260): 404
when no row exists; otherwise one S3 delete is attempted — with no
client configured the `None.delete_object` attribute error reaches the
global handler (HTTP 500), and a `ClientError` is raised as HTTP 500;
only on success is the database row removed. -/
def router_delete_file (env : StorageEnv) (remote : S3Remote) (db : DB)
    (fileId : Nat) : Except ApiError (S3Remote × DB) :=
  match db.stored_files.find? (fun f => f.id = fileId) with
  | none => .error .notFound404
  | some f =>
    if !env.s3_client then .error .unexpected500
    else
      match remote.deleteObject f.file_path with
      | some r2 =>
        .ok (r2, { db with stored_files := db.stored_files.filter (fun g => g.id ≠ fileId) })
      | none => .error .unexpected500

/-! ### Theorems -/

/-- C1 counterexample: with the base slug already taken and nothing
else, `generate_slug` returns `slug(T)-1`, not the `slug(T)-2` the
claim requires (the Python counter starts at 1). -/
theorem generate_slug_suffix_starts_at_one_cex :
    generate_slug "The Title" ["the-title"] = "the-title-1" ∧
    generate_slug "The Title" ["the-title"] ≠ "the-title-2" := by
  constructor <;> decide

/-- C1 (amended): the suffix search is strictly monotonic and the first
free suffix wins, but it starts at 1, not 2: if candidates
`slug(T)`, `slug(T)-1`, …, `slug(T)-(k-1)` are all taken and
`slug(T)-k` is free, `generate_slug` returns `slug(T)-k`.  (The bound
`k ≤ length + 1` always holds in such a scenario, the `k` taken
candidates being distinct members of `taken`.) -/
theorem generate_slug_first_free_suffix (title : String) (taken : List String)
    (k : Nat) (hk : k ≤ taken.length + 1)
    (htaken : ∀ j < k, slugCandidate (slugify title) j ∈ taken)
    (hfree : slugCandidate (slugify title) k ∉ taken) :
    generate_slug title taken = slugCandidate (slugify title) k := by
  unfold generate_slug
  exact slugSearch_finds _ _ _ 0 k (Nat.zero_le k) (by omega)
    (fun j _ hj => htaken j hj) hfree

theorem generate_slug_first_free_suffix_witness :
    generate_slug "The Title" ["the-title", "the-title-1"] =
      slugCandidate (slugify "The Title") 2 :=
  generate_slug_first_free_suffix "The Title" ["the-title", "the-title-1"] 2
    (by decide) (by decide) (by decide)

/-- C9: creating a blog category, a category or a tag whose name equals
an existing row name returns that existing row unchanged with an
unchanged database — idempotent creation keyed on name, no Conflict. -/
theorem create_named_lookups_idempotent (db : DB) (nid : Nat)
    (d1 d2 d3 sl : Option String) (n1 n2 n3 : String)
    (c : BlogCategoryRow) (k : CategoryRow) (t : TagRow)
    (hc : db.blog_categories.find? (fun r => r.name = n1) = some c)
    (hk : db.categories.find? (fun r => r.name = n2) = some k)
    (ht : db.tags.find? (fun r => r.name = n3) = some t) :
    create_blog_category db ⟨n1, d1, sl⟩ nid = .ok (db, c) ∧
    create_category db ⟨n2, d2⟩ nid = .ok (db, k) ∧
    create_tag db ⟨n3, d3⟩ nid = .ok (db, t) := by
  refine ⟨?_, ?_, ?_⟩ <;> simp [create_blog_category, create_category, create_tag, hc, hk, ht]

def sampleBlogCategory : BlogCategoryRow :=
  { id := 1, name := "General", description := none, slug := "general" }

def sampleCategory : CategoryRow :=
  { id := 1, name := "News", description := none }

def sampleTag : TagRow :=
  { id := 1, name := "health", description := none }

def dbTaxonomy : DB :=
  { DB.empty with blog_categories := [sampleBlogCategory],
                  categories := [sampleCategory], tags := [sampleTag] }

theorem create_named_lookups_idempotent_witness :
    create_blog_category dbTaxonomy ⟨"General", none, none⟩ 9 = .ok (dbTaxonomy, sampleBlogCategory) ∧
    create_category dbTaxonomy ⟨"News", none⟩ 9 = .ok (dbTaxonomy, sampleCategory) ∧
    create_tag dbTaxonomy ⟨"health", none⟩ 9 = .ok (dbTaxonomy, sampleTag) :=
  create_named_lookups_idempotent dbTaxonomy 9 none none none none
    "General" "News" "health" sampleBlogCategory sampleCategory sampleTag
    (by decide) (by decide) (by decide)

def sampleNews : NewsRow :=
  { id := 1, title := "Old", slug := "dup", featured_image_id := none,
    category_id := none, content := "c", is_published := true,
    view_count := 0, tag_ids := [] }

def dbOneNews : DB := { DB.empty with news := [sampleNews] }

/-- C2 counterexample: `create_news` performs no duplicate check on an
explicitly supplied slug; the colliding insert dies on the unique
constraint and surfaces as HTTP 500 (`IntegrityError`), not as the
Conflict (409) the claim requires. -/
theorem create_news_duplicate_slug_cex :
    create_news dbOneNews
      { title := "New", slug := some "dup", content := "c2",
        is_published := true, category_id := none,
        featured_image_id := none, tag_ids := none } 2 =
      .error .integrityError500 ∧
    ApiError.integrityError500 ≠ ApiError.conflict409 := by
  constructor
  · rfl
  · decide

/-- C2 (amended): an explicitly supplied colliding slug is rejected
with Conflict (409) and no row for blog and event creation, but for
news creation the collision is not checked and instead surfaces as a
database integrity error (HTTP 500), also creating no row. -/
theorem explicit_slug_duplicate_handling (db : DB) (s : String) (hs : s ≠ "")
    (binp : BlogCreate) (hbslug : binp.slug = some s)
    (hbdup : db.blogs.any (fun b => b.slug = s) = true)
    (einp : EventCreate) (heslug : einp.slug = some s)
    (hedup : db.events.any (fun e => e.slug = s) = true)
    (ninp : NewsCreate) (hnslug : ninp.slug = some s)
    (hndup : db.news.any (fun n => n.slug = s) = true)
    (nid : Nat) :
    create_blog db binp nid = .error .conflict409 ∧
    create_event db einp nid = .error .conflict409 ∧
    create_news db ninp nid = .error .integrityError500 := by
  refine ⟨?_, ?_, ?_⟩
  · simp [create_blog, hbslug, truthyStr, hs, hbdup]
  · simp [create_event, heslug, truthyStr, hs, hedup]
  · simp [create_news, insertNews, hnslug, truthyStr, hs, hndup]

def sampleBlog : BlogRow :=
  { id := 1, title := "Old", slug := "dup", featured_image_id := none,
    author_id := none, author_name := none, category_id := none,
    content := "c", og_image_id := none, is_published := true,
    view_count := 0, tag_ids := [], related_blog_ids := [] }

def sampleEvent : EventRow :=
  { id := 1, title := "Old", slug := "dup", featured_image_id := none,
    category_id := none, description := "d", is_published := true,
    view_count := 0, tag_ids := [] }

def dbDupSlugs : DB :=
  { DB.empty with blogs := [sampleBlog], events := [sampleEvent],
                  news := [sampleNews] }

theorem explicit_slug_duplicate_handling_witness :
    create_blog dbDupSlugs
      { title := "B", slug := some "dup", content := "c", author_name := none,
        is_published := true, category_id := none, author_id := none,
        featured_image_id := none, og_image_id := none, tag_ids := none,
        related_blog_ids := none } 2 = .error .conflict409 ∧
    create_event dbDupSlugs
      { title := "E", slug := some "dup", description := "d",
        is_published := true, category_id := none, featured_image_id := none,
        tag_ids := none } 2 = .error .conflict409 ∧
    create_news dbDupSlugs
      { title := "N", slug := some "dup", content := "c", is_published := true,
        category_id := none, featured_image_id := none, tag_ids := none } 2 =
      .error .integrityError500 :=
  explicit_slug_duplicate_handling dbDupSlugs "dup" (by decide)
    _ rfl (by decide) _ rfl (by decide) _ rfl (by decide) 2

/-- C6 counterexample: `category_id = 0` is falsy in Python, so
`if blog_data.get("category_id"):` skips the existence check; the
unresolvable id 0 reaches the insert and violates the foreign-key
constraint — the create fails with HTTP 500 instead of succeeding with
a null category. -/
theorem create_blog_zero_category_cex :
    DB.empty.blog_categories = [] ∧
    create_blog DB.empty
      { title := "T", slug := some "t", content := "c", author_name := none,
        is_published := true, category_id := some 0, author_id := none,
        featured_image_id := none, og_image_id := none, tag_ids := none,
        related_blog_ids := none } 1 = .error .integrityError500 := by
  constructor
  · rfl
  · rfl

/-- C6 (amended): for a truthy (nonzero) `category_id` that does not
resolve to an existing blog category, creation succeeds and the stored
row has a null category reference; the falsy id 0 instead bypasses
validation and fails at commit. -/
theorem create_blog_bad_category_downgraded (db : DB) (inp : BlogCreate)
    (nid : Nat) (c : Nat) (s : String)
    (hc : inp.category_id = some c) (hc0 : c ≠ 0)
    (hnores : ¬ ∃ cat ∈ db.blog_categories, cat.id = c)
    (hslug : inp.slug = some s) (hs : s ≠ "")
    (hnodup : db.blogs.any (fun b => b.slug = s) = false)
    (hauthor : inp.author_id = none) (hfimg : inp.featured_image_id = none)
    (hoimg : inp.og_image_id = none) :
    ∃ db2 row, create_blog db inp nid = .ok (db2, row) ∧
      row.category_id = none := by
  simp only [create_blog, hc, hslug, hauthor, hfimg, hoimg, downgradeFk,
    truthyStr, truthyNat, insertBlog, fkOk]
  simp [hs, hc0, hnodup, hnores]
  exact ⟨_, _, ⟨rfl, rfl⟩, rfl⟩

theorem create_blog_bad_category_downgraded_witness :
    ∃ db2 row,
      create_blog DB.empty
        { title := "T", slug := some "t", content := "c", author_name := none,
          is_published := true, category_id := some 5, author_id := none,
          featured_image_id := none, og_image_id := none, tag_ids := none,
          related_blog_ids := none } 1 = .ok (db2, row) ∧
      row.category_id = none :=
  create_blog_bad_category_downgraded DB.empty _ 1 5 "t" rfl (by decide)
    (by decide) rfl (by decide) (by decide) rfl rfl rfl

def dbOneBlog : DB := { DB.empty with blogs := [sampleBlog] }

def cexBlogComment : CommentRow :=
  { id := 7, content := "hi", author_name := none, author_email := none,
    user_id := none, news_id := none, event_id := none, blog_id := some 1,
    content_type := .news, is_approved := false }

/-- C5 counterexample: a blog comment is stored with
`content_type = news` while its `news_id` is empty (`blog_id` is set
instead), so the discriminator does not match the populated id field. -/
theorem blog_comment_discriminator_cex :
    create_blog_comment dbOneBlog 1 ⟨"hi", none, none, none⟩ 7 =
      .ok ({ dbOneBlog with comments := [cexBlogComment] }, cexBlogComment) ∧
    cexBlogComment.content_type = .news ∧
    cexBlogComment.news_id = none ∧
    ¬ commentInvariant cexBlogComment := by
  refine ⟨rfl, rfl, rfl, fun h => h.1 rfl rfl⟩

/-- C5 (amended): comments created through the `/comments` endpoint
satisfy the discriminator invariant, but blog-comment creation breaks
it: every comment it stores has `content_type = news` with `blog_id`
populated and `news_id` empty. -/
theorem comment_discriminator_amended :
    (∀ db inp nid db2 c,
      create_comment db inp nid = .ok (db2, c) → commentInvariant c) ∧
    (∀ db blogId binp nid db2 c,
      create_blog_comment db blogId binp nid = .ok (db2, c) →
        c.content_type = .news ∧ c.blog_id = some blogId ∧ c.news_id = none) := by
  constructor
  · intro db inp nid db2 c h
    unfold create_comment at h
    dsimp only at h
    cases hct : inp.content_type with
    | news =>
      rw [hct] at h
      cases hni : inp.news_id with
      | none => rw [hni] at h; simp at h
      | some n =>
        rw [hni] at h
        dsimp only at h
        split at h
        · simp at h
        · split at h
          · simp at h
          · simp only [Except.ok.injEq, Prod.mk.injEq] at h
            obtain ⟨-, rfl⟩ := h
            exact ⟨fun _ => by simp, fun hev => by cases hev⟩
    | event =>
      rw [hct] at h
      cases hei : inp.event_id with
      | none => rw [hei] at h; simp at h
      | some n =>
        rw [hei] at h
        dsimp only at h
        split at h
        · simp at h
        · split at h
          · simp at h
          · simp only [Except.ok.injEq, Prod.mk.injEq] at h
            obtain ⟨-, rfl⟩ := h
            exact ⟨fun hnw => (by cases hnw), fun _ => (by simp)⟩
  · intro db blogId binp nid db2 c h
    unfold create_blog_comment at h
    split at h
    · dsimp only at h
      split at h
      · simp at h
      · simp only [Except.ok.injEq, Prod.mk.injEq] at h
        obtain ⟨-, rfl⟩ := h
        exact ⟨rfl, rfl, rfl⟩
    · simp at h

def sampleNewsComment : CommentRow :=
  { id := 8, content := "hi", author_name := none, author_email := none,
    user_id := none, news_id := some 1, event_id := none, blog_id := none,
    content_type := .news, is_approved := false }

theorem comment_discriminator_amended_witness :
    commentInvariant sampleNewsComment ∧
    (cexBlogComment.content_type = .news ∧
      cexBlogComment.blog_id = some 1 ∧ cexBlogComment.news_id = none) :=
  ⟨comment_discriminator_amended.1 dbOneNews ⟨"hi", none, none, .news, some 1, none⟩ 8
      { dbOneNews with comments := [sampleNewsComment] } sampleNewsComment rfl,
    comment_discriminator_amended.2 dbOneBlog 1 ⟨"hi", none, none, none⟩ 7
      { dbOneBlog with comments := [cexBlogComment] } cexBlogComment rfl⟩

/-- C7: subscribing twice with the same still-active email returns the
same record (same id) both times, attaches an informational message the
second time instead of erring, and leaves exactly one row with that
email — subscribe is idempotent for active emails. -/
theorem subscribe_idempotent_active (db : DB) (e : String) (n src : Option String)
    (tok tok2 : String) (id1 id2 : Nat)
    (hfresh : db.subscriptions.find? (fun s => s.email = e) = none) :
    ∃ db1 r1,
      create_subscription db ⟨e, n, src⟩ tok id1 = (db1, r1, none) ∧
      create_subscription db1 ⟨e, n, src⟩ tok2 id2 =
        (db1, r1, some "This email is already subscribed to our newsletter.") ∧
      r1.id = id1 ∧
      (db1.subscriptions.filter (fun s => s.email = e)).length = 1 := by
  refine ⟨{ db with subscriptions := db.subscriptions ++ [{ id := id1, email := e, name := n, is_confirmed := false, confirmation_token := some tok, source := src, confirmed_at := none, unsubscribed_at := none, is_active := true }] }, { id := id1, email := e, name := n, is_confirmed := false, confirmation_token := some tok, source := src, confirmed_at := none, unsubscribed_at := none, is_active := true }, ?_, ?_, ?_, ?_⟩
  · unfold create_subscription
    rw [hfresh]
  · unfold create_subscription
    rw [List.find?_append, hfresh]
    simp
  · rfl
  · have hnil : db.subscriptions.filter (fun s => s.email = e) = [] :=
      List.filter_eq_nil_iff.mpr (fun x hx => by
        simpa using List.find?_eq_none.mp hfresh x hx)
    simp [List.filter_append, hnil]

theorem subscribe_idempotent_active_witness :
    ∃ db1 r1,
      create_subscription DB.empty ⟨"a@b.c", none, none⟩ "tok1" 1 = (db1, r1, none) ∧
      create_subscription db1 ⟨"a@b.c", none, none⟩ "tok2" 2 =
        (db1, r1, some "This email is already subscribed to our newsletter.") ∧
      r1.id = 1 ∧
      (db1.subscriptions.filter (fun s => s.email = "a@b.c")).length = 1 :=
  subscribe_idempotent_active DB.empty "a@b.c" none none "tok1" "tok2" 1 2 rfl

/-- C8: confirming an existing token marks the subscription confirmed
and clears the token, so a second confirmation with the same token —
like any confirmation with an unknown token — fails with 404. -/
theorem confirm_token_clear_replay (db : DB) (t : String) (now now2 : Nat)
    (s : SubscriptionRow)
    (hfind : db.subscriptions.find?
      (fun r => r.confirmation_token = some t) = some s)
    (huniq : ∀ r ∈ db.subscriptions,
      r.confirmation_token = some t → r.id = s.id) :
    (∀ t2, (∀ r ∈ db.subscriptions, r.confirmation_token ≠ some t2) →
      confirm_subscription db t2 now = .error .notFound404) ∧
    ∃ db2, confirm_subscription db t now = .ok db2 ∧
      (∀ r ∈ db2.subscriptions, r.confirmation_token ≠ some t) ∧
      confirm_subscription db2 t now2 = .error .notFound404 ∧
      ∃ r ∈ db2.subscriptions,
        r.id = s.id ∧ r.is_confirmed = true ∧ r.confirmation_token = none := by
  constructor
  · intro t2 h2
    unfold confirm_subscription
    rw [List.find?_eq_none.mpr (fun x hx => by simpa using h2 x hx)]
  · refine ⟨{ db with subscriptions := List.map (fun r => if r.id = s.id then { s with is_confirmed := true, confirmed_at := some now, confirmation_token := none } else r) db.subscriptions }, ?_, ?_, ?_, ?_⟩
    · unfold confirm_subscription
      rw [hfind]
    · intro r hr
      rw [List.mem_map] at hr
      obtain ⟨x, hx, rfl⟩ := hr
      by_cases hid : x.id = s.id
      · simp [hid]
      · intro hcontra
        rw [if_neg hid] at hcontra
        exact hid (huniq x hx hcontra)
    · unfold confirm_subscription
      rw [List.find?_eq_none.mpr ?_]
      intro x hx
      simp only [List.mem_map] at hx
      obtain ⟨y, hy, rfl⟩ := hx
      by_cases hid : y.id = s.id
      · simp [hid]
      · simp only [if_neg hid]
        simpa using fun hcontra => hid (huniq y hy hcontra)
    · refine ⟨_, List.mem_map_of_mem _ (List.mem_of_find?_eq_some hfind), ?_⟩
      simp

def subWithToken : SubscriptionRow :=
  { id := 3, email := "a@b.c", name := none, is_confirmed := false,
    confirmation_token := some "tok", source := none, confirmed_at := none,
    unsubscribed_at := none, is_active := true }

def dbOneToken : DB := { DB.empty with subscriptions := [subWithToken] }

theorem confirm_token_clear_replay_witness :
    (∀ t2, (∀ r ∈ dbOneToken.subscriptions, r.confirmation_token ≠ some t2) →
      confirm_subscription dbOneToken t2 5 = .error .notFound404) ∧
    ∃ db2, confirm_subscription dbOneToken "tok" 5 = .ok db2 ∧
      (∀ r ∈ db2.subscriptions, r.confirmation_token ≠ some "tok") ∧
      confirm_subscription db2 "tok" 6 = .error .notFound404 ∧
      ∃ r ∈ db2.subscriptions,
        r.id = subWithToken.id ∧ r.is_confirmed = true ∧
        r.confirmation_token = none := by
  exact confirm_token_clear_replay dbOneToken "tok" 5 6 subWithToken rfl
    (by decide)

/-- C10: a successful upload of a non-empty payload writes exactly the
request bytes to the active backend (remote object store, or local disk
— also as the fallback target), and records `size_bytes` equal to the
payload length. -/
theorem upload_stores_payload_verbatim (env : StorageEnv) (remote : S3Remote)
    (localFiles : List (String × Bytes)) (db : DB) (contents : Bytes)
    (origName uniqueName : String) (ftype : FileType) (ctype : String)
    (relatedId : Option Nat) (nextId : Nat) (h : contents ≠ []) :
    ∃ r2 lf2 db2 row,
      upload_file env remote localFiles db contents origName uniqueName ftype
        ctype relatedId nextId = .ok (r2, lf2, db2, row) ∧
      row.size_bytes = contents.length ∧
      (lookupBytes r2.objects (ftype.value ++ "/" ++ uniqueName) = some contents ∨
        lookupBytes lf2 (ftype.value ++ "/" ++ uniqueName) = some contents) := by
  unfold upload_file
  rw [if_neg h]
  dsimp only
  by_cases hs3 : (env.s3_client && !env.use_local_storage && env.s3_bucket.isSome) = true
  · rw [if_pos hs3]
    by_cases hc : remote.connected = true
    · simp only [S3Remote.putObject, hc, if_true, lookupBytes, Option.map_eq_some']
      simp only [Except.ok.injEq, Prod.mk.injEq]
      refine ⟨_, _, _, _, ⟨rfl, rfl, rfl, rfl⟩, rfl, Or.inl ?_⟩
      simp
    · simp only [S3Remote.putObject, hc, if_false, Bool.false_eq_true,
        save_to_local_storage, lookupBytes, Option.map_eq_some']
      simp only [Except.ok.injEq, Prod.mk.injEq]
      refine ⟨_, _, _, _, ⟨rfl, rfl, rfl, rfl⟩, rfl, Or.inr ?_⟩
      simp
  · rw [if_neg hs3]
    simp only [save_to_local_storage, lookupBytes, Option.map_eq_some']
    simp only [Except.ok.injEq, Prod.mk.injEq]
    refine ⟨_, _, _, _, ⟨rfl, rfl, rfl, rfl⟩, rfl, Or.inr ?_⟩
    simp

theorem upload_stores_payload_verbatim_witness :
    ∃ r2 lf2 db2 row,
      upload_file
        { s3_client := true, use_local_storage := false, s3_bucket := some "bkt",
          s3_region := "us-east-2", base_url := "http://localhost:8000",
          local_storage_path := "local_uploads" }
        ⟨true, []⟩ [] DB.empty [1, 2, 3] "a.bin" "u.bin" .other
        "application/octet-stream" none 1 = .ok (r2, lf2, db2, row) ∧
      row.size_bytes = ([1, 2, 3] : Bytes).length ∧
      (lookupBytes r2.objects (FileType.other.value ++ "/" ++ "u.bin") =
          some [1, 2, 3] ∨
        lookupBytes lf2 (FileType.other.value ++ "/" ++ "u.bin") =
          some [1, 2, 3]) :=
  upload_stores_payload_verbatim _ ⟨true, []⟩ [] DB.empty [1, 2, 3] "a.bin"
    "u.bin" .other "application/octet-stream" none 1 (by decide)

def exampleJpegBytes : Bytes := [255, 216, 255, 224, 10, 20, 30]

/-- Models the image-codec capability on one concrete payload: the
bytes `exampleJpegBytes` decode as a 3000×2000 JPEG. -/
def exampleJpegDims (bs : Bytes) : Nat × Nat :=
  if bs = exampleJpegBytes then (3000, 2000) else (0, 0)

def localEnv : StorageEnv :=
  { s3_client := false, use_local_storage := true, s3_bucket := none,
    s3_region := "us-east-2", base_url := "http://localhost:8000",
    local_storage_path := "local_uploads" }

def cexStoredRow : StoredFileRow :=
  { id := 1, filename := "u.jpg", original_filename := "photo.jpg",
    file_path := "local_uploads/other/u.jpg", file_type := .other,
    content_type := "image/jpeg", size_bytes := 7,
    bucket_name := "local_storage",
    public_url := some "http://localhost:8000/local-files/other/u.jpg",
    related_entity_id := none }

/-- C3 counterexample: `upload_file` has no compression path at all —
a JPEG payload decoding as 3000×2000 is stored byte-identically, so the
stored image still decodes as 3000×2000 and its longer dimension
exceeds 2000. -/
theorem upload_no_downscale_cex :
    upload_file localEnv ⟨false, []⟩ [] DB.empty exampleJpegBytes "photo.jpg"
        "u.jpg" .other "image/jpeg" none 1 =
      .ok (⟨false, []⟩, [("other/u.jpg", exampleJpegBytes)],
        { DB.empty with stored_files := [cexStoredRow] }, cexStoredRow) ∧
    exampleJpegDims exampleJpegBytes = (3000, 2000) ∧
    ¬ (3000 ≤ 2000) := by
  refine ⟨rfl, rfl, by decide⟩

/-- C3 (amended): no image normalizer exists in the code: uploading a
payload declared as an allow-listed image type (JPEG/PNG/WEBP) stores
the bytes unchanged, so the byte size equals (hence is at most) the
original but the decoded dimensions — under any decoder — are exactly
those of the original, not reduced to any configured maximum. -/
theorem upload_image_not_transformed (env : StorageEnv) (remote : S3Remote)
    (localFiles : List (String × Bytes)) (db : DB) (contents : Bytes)
    (origName uniqueName : String) (ftype : FileType) (relatedId : Option Nat)
    (nextId : Nat) (ctype : String)
    (_himg : ctype = "image/jpeg" ∨ ctype = "image/png" ∨ ctype = "image/webp")
    (h : contents ≠ []) :
    ∃ r2 lf2 db2 row,
      upload_file env remote localFiles db contents origName uniqueName ftype
        ctype relatedId nextId = .ok (r2, lf2, db2, row) ∧
      row.content_type = ctype ∧
      row.size_bytes = contents.length ∧
      ∃ stored : Bytes,
        (lookupBytes r2.objects (ftype.value ++ "/" ++ uniqueName) = some stored ∨
          lookupBytes lf2 (ftype.value ++ "/" ++ uniqueName) = some stored) ∧
        stored = contents ∧
        ∀ dims : Bytes → Nat × Nat, dims stored = dims contents := by
  unfold upload_file
  rw [if_neg h]
  dsimp only
  by_cases hs3 : (env.s3_client && !env.use_local_storage && env.s3_bucket.isSome) = true
  · rw [if_pos hs3]
    by_cases hc : remote.connected = true
    · simp only [S3Remote.putObject, hc, if_true, lookupBytes, Option.map_eq_some']
      simp only [Except.ok.injEq, Prod.mk.injEq]
      refine ⟨_, _, _, _, ⟨rfl, rfl, rfl, rfl⟩, rfl, rfl, contents,
        Or.inl ?_, rfl, fun _ => rfl⟩
      simp
    · simp only [S3Remote.putObject, hc, if_false, Bool.false_eq_true,
        save_to_local_storage, lookupBytes, Option.map_eq_some']
      simp only [Except.ok.injEq, Prod.mk.injEq]
      refine ⟨_, _, _, _, ⟨rfl, rfl, rfl, rfl⟩, rfl, rfl, contents,
        Or.inr ?_, rfl, fun _ => rfl⟩
      simp
  · rw [if_neg hs3]
    simp only [save_to_local_storage, lookupBytes, Option.map_eq_some']
    simp only [Except.ok.injEq, Prod.mk.injEq]
    refine ⟨_, _, _, _, ⟨rfl, rfl, rfl, rfl⟩, rfl, rfl, contents,
      Or.inr ?_, rfl, fun _ => rfl⟩
    simp

theorem upload_image_not_transformed_witness :
    ∃ r2 lf2 db2 row,
      upload_file localEnv ⟨false, []⟩ [] DB.empty exampleJpegBytes "photo.jpg"
        "u2.jpg" .other "image/jpeg" none 1 = .ok (r2, lf2, db2, row) ∧
      row.content_type = "image/jpeg" ∧
      row.size_bytes = exampleJpegBytes.length ∧
      ∃ stored : Bytes,
        (lookupBytes r2.objects (FileType.other.value ++ "/" ++ "u2.jpg") =
            some stored ∨
          lookupBytes lf2 (FileType.other.value ++ "/" ++ "u2.jpg") =
            some stored) ∧
        stored = exampleJpegBytes ∧
        ∀ dims : Bytes → Nat × Nat, dims stored = dims exampleJpegBytes :=
  upload_image_not_transformed localEnv ⟨false, []⟩ [] DB.empty
    exampleJpegBytes "photo.jpg" "u2.jpg" .other none 1 "image/jpeg"
    (Or.inl rfl) (by decide)

/-- C4 counterexample: with the local backend active, deleting a key
whose file is missing reports failure — `(False, "File not found")` —
not the success the claim requires. -/
theorem delete_local_missing_cex :
    S3Storage.delete_file localEnv ⟨true, []⟩ [] "other/missing.jpg" none =
      (false, "File not found", ⟨true, []⟩, []) ∧
    (false : Bool) ≠ true := by
  exact ⟨rfl, by decide⟩

/-- C4 (amended): on the remote backend a delete succeeds whether or
not the object exists (missing-object idempotence, no hypothesis about
the key below), and a connectivity failure is reported to the caller as
a failure result — surfaced by the route as HTTP 500 — without any
retry; on the local backend, however, deleting a missing file reports
failure `"File not found"` rather than success. -/
theorem storage_delete_semantics (env : StorageEnv) (remote : S3Remote)
    (files : List (String × Bytes)) (key : String) (hint : Option String)
    (henv : env.use_local_storage = false) (hcli : env.s3_client = true)
    (hbucket : ((if truthyStr hint then hint else env.s3_bucket) ==
      some "local_storage") = false) :
    (remote.connected = true →
      S3Storage.delete_file env remote files key hint =
        (true, "File deleted successfully",
          { remote with objects := remote.objects.filter (fun p => p.1 ≠ key) },
          files)) ∧
    (remote.connected = false →
      S3Storage.delete_file env remote files key hint =
        (false, "S3 client error: connection failure", remote, files)) ∧
    (∀ (env2 : StorageEnv) (rem2 : S3Remote) (lfiles : List (String × Bytes)),
      env2.use_local_storage = true →
      (lfiles.find? (fun p => p.1 = key)).isSome = false →
      S3Storage.delete_file env2 rem2 lfiles key hint =
        (false, "File not found", rem2, lfiles)) ∧
    (∀ (db : DB) (f : StoredFileRow) (fid : Nat),
      db.stored_files.find? (fun g => g.id = fid) = some f →
      remote.connected = false →
      router_delete_file env remote db fid = .error .unexpected500) := by
  refine ⟨?_, ?_, ?_, ?_⟩
  · intro hc
    unfold S3Storage.delete_file
    simp [henv, hbucket, hcli, S3Remote.deleteObject, hc]
  · intro hc
    unfold S3Storage.delete_file
    simp [henv, hbucket, hcli, S3Remote.deleteObject, hc]
  · intro env2 rem2 lfiles hlocal hmiss
    unfold S3Storage.delete_file
    simp [hlocal, delete_local_file, hmiss]
  · intro db f fid hf hc
    unfold router_delete_file
    rw [hf]
    simp [hcli, S3Remote.deleteObject, hc]

def s3Env : StorageEnv :=
  { s3_client := true, use_local_storage := false, s3_bucket := some "bkt",
    s3_region := "us-east-2", base_url := "http://localhost:8000",
    local_storage_path := "local_uploads" }

theorem storage_delete_semantics_witness :
    S3Storage.delete_file s3Env ⟨true, []⟩ [] "k.jpg" none =
      (true, "File deleted successfully", ⟨true, []⟩, []) ∧
    S3Storage.delete_file localEnv ⟨true, []⟩ [] "k.jpg" none =
      (false, "File not found", ⟨true, []⟩, []) ∧
    router_delete_file s3Env ⟨false, []⟩
      { DB.empty with stored_files := [cexStoredRow] } 1 =
      .error .unexpected500 := by
  refine ⟨?_, ?_, ?_⟩
  · have h := (storage_delete_semantics s3Env ⟨true, []⟩ [] "k.jpg" none rfl rfl
      rfl).1 rfl
    simpa using h
  · exact (storage_delete_semantics s3Env ⟨true, []⟩ [] "k.jpg" none rfl rfl
      rfl).2.2.1 localEnv ⟨true, []⟩ [] rfl rfl
  · exact (storage_delete_semantics s3Env ⟨false, []⟩ [] "k.jpg" none rfl rfl
      rfl).2.2.2 { DB.empty with stored_files := [cexStoredRow] } cexStoredRow 1
      rfl rfl

end BackendPath
